import Mathlib

/-!
Verification of the audio-plugin RAG recommendation pipeline.

This file is a shallow embedding of the retrieval-and-ranking core of the
repository: the Pydantic data models (src/database/models.py), the canonical
text projection and SQL search semantics of the vector store
(src/database/vector_store.py), the cosine-similarity arithmetic
(src/utils/embeddings.py), and the response assembly of the orchestrator
(src/agent/rag_agent.py).  Python floats are modelled as rationals where the
code only moves scores around, and as real numbers where the numeric value of
the cosine formula itself is at stake.  The opaque generative step
(agent.run) is a parameter: the orchestrator theorems hold for every output
the generative capability may produce.  Network effects (embedding provider,
database) are made explicit as a call trace so that claims about which calls
are attempted become statements about that trace.
-/

/-- JSON scalar values appearing in metadata mappings (string or integer). -/
inductive JVal where
  | s (v : String)
  | n (v : Int)
deriving DecidableEq

/-- models.py Plugin: an individual plugin in a chain. -/
structure Plugin where
  name : String
  manufacturer : String
  category : String
  order : Int
  settings : Option String
  parameters : Option (List (String × JVal))
deriving DecidableEq

/-- models.py PluginChain: a complete plugin chain. -/
structure PluginChain where
  id : Option Int
  name : String
  description : String
  plugins : List Plugin
  genre : Option String
  instrument : Option String
  tags : List String
  rating : Option ℚ
  created_at : Option Int
  created_by : Option String
deriving DecidableEq

/-- models.py PluginQuery: a query for plugin chain recommendations. -/
structure PluginQuery where
  text : String
  genre : Option String
  instrument : Option String
  owned_plugins : List String
  max_results : Int
deriving DecidableEq

/-- models.py PluginRecommendation: one recommendation in the response. -/
structure PluginRecommendation where
  chain : PluginChain
  similarity_score : ℚ
  explanation : String
  confidence : ℚ
deriving DecidableEq

/-- models.py RAGResponse: the response envelope of the RAG agent. -/
structure RAGResponse where
  recommendations : List PluginRecommendation
  query_context : String
  total_results : Int
  search_time_ms : ℚ
deriving DecidableEq

/-- models.py DocumentChunk: a knowledge-base document chunk. -/
structure DocumentChunk where
  id : Option Int
  content : String
  embedding : List ℚ
  metadata : List (String × JVal)
  source : String
  chunk_index : Int
  created_at : Option Int
deriving DecidableEq

/-- vector_store.py add_plugin_chain, lines 103 to 107: the text handed to the
embedding provider.  An f-string concatenates name, description and the
space-joined tags; genre and instrument are appended afterwards, each only
when truthy (Python: a non-empty string). -/
def chainText (c : PluginChain) : String :=
  let t := c.name ++ " " ++ c.description ++ " " ++ String.intercalate " " c.tags
  let t := match c.genre with
    | some g => if g = "" then t else t ++ " " ++ g
    | none => t
  match c.instrument with
  | some i => if i = "" then t else t ++ " " ++ i
  | none => t

/-- rag_agent.py query, lines 105 to 111: the query context string.  Each
clause is appended when the corresponding field is truthy in Python, i.e. a
non-None, non-empty string, or a non-empty list. -/
def buildQueryContext (q : PluginQuery) : String :=
  let c := "Query: " ++ q.text
  let c := match q.genre with
    | some g => if g = "" then c else c ++ " | Genre: " ++ g
    | none => c
  let c := match q.instrument with
    | some i => if i = "" then c else c ++ " | Instrument: " ++ i
    | none => c
  if q.owned_plugins.isEmpty then c
  else c ++ " | Owned plugins: " ++ String.intercalate ", " q.owned_plugins

/-- The query context as the specification words it: a clause is appended iff
the optional field is set (present), regardless of its content. -/
def specQueryContextSet (q : PluginQuery) : String :=
  "Query: " ++ q.text
  ++ (match q.genre with
      | some g => " | Genre: " ++ g
      | none => "")
  ++ (match q.instrument with
      | some i => " | Instrument: " ++ i
      | none => "")
  ++ (if q.owned_plugins.isEmpty then ""
      else " | Owned plugins: " ++ String.intercalate ", " q.owned_plugins)

/-- The query context with the amended reading: a clause is appended iff the
optional field is set to a non-empty string (the owned-plugins clause iff the
list is non-empty). -/
def specQueryContextTruthy (q : PluginQuery) : String :=
  "Query: " ++ q.text
  ++ (match q.genre with
      | some g => if g = "" then "" else " | Genre: " ++ g
      | none => "")
  ++ (match q.instrument with
      | some i => if i = "" then "" else " | Instrument: " ++ i
      | none => "")
  ++ (if q.owned_plugins.isEmpty then ""
      else " | Owned plugins: " ++ String.intercalate ", " q.owned_plugins)

/-- A row of the plugin_chains table (vector_store.py initialize_tables).
The tags column is nullable in the schema, hence Option. -/
structure ChainRow where
  id : Int
  name : String
  description : String
  plugins : List Plugin
  genre : Option String
  instrument : Option String
  tags : Option (List String)
  rating : Option ℚ
  created_at : Option Int
  created_by : Option String
  embedding : List ℚ
deriving DecidableEq

/-- A row of the documents table joined with document_metadata
(vector_store.py search_documents).  The embedding and joined columns are
nullable. -/
structure DocRow where
  id : Int
  content : String
  metadata : Option (List (String × JVal))
  embedding : Option (List ℚ)
  title : Option String
  url : Option String
deriving DecidableEq

/-- A network-bound call issued by the vector store: an embedding request to
the provider, or a SQL round trip to the database. -/
inductive NetCall where
  | embed (text : String)
  | store
deriving DecidableEq

/-- Failure conditions a search can surface.  invalidInput is the condition
the specification names for malformed queries; providerUnavailable models an
exception from the embedding client; storeError models a database error such
as a negative LIMIT rejected by Postgres. -/
inductive SearchErr where
  | invalidInput
  | providerUnavailable
  | storeError
deriving DecidableEq

/-- The environment the vector store runs against: the embedding provider
(which may fail), the cosine-distance computation of the pgvector operator
applied to a query vector and a stored vector (opaque to the SQL layer), and
the current contents of the two tables. -/
structure Env where
  embed : String → Except Unit (List ℚ)
  dist : List ℚ → List ℚ → ℚ
  chains : List ChainRow
  docs : List DocRow

/-- Case-insensitive list-segment containment used to model SQL ILIKE with a
pattern surrounded by percent signs: startsWithSeg needle hay checks that
needle occurs at the front of hay. -/
def startsWithSeg : List Char → List Char → Bool
  | [], _ => true
  | _ :: _, [] => false
  | a :: as, b :: bs => a == b && startsWithSeg as bs

/-- containsSeg needle hay checks that needle occurs somewhere inside hay. -/
def containsSeg (needle : List Char) : List Char → Bool
  | [] => startsWithSeg needle []
  | c :: t => startsWithSeg needle (c :: t) || containsSeg needle t

/-- SQL col ILIKE pattern with the filter value wrapped in percent signs:
case-insensitive substring match; a NULL column never matches. -/
def sqlILikeAnywhere (pat : String) (col : Option String) : Bool :=
  match col with
  | none => false
  | some s => containsSeg pat.toLower.data s.toLower.data

/-- vector_store.py search_plugin_chains, lines 140 to 155: the WHERE clause
built from the optional filters, evaluated on one row.  A condition is added
only when the Python value is truthy, i.e. a non-None, non-empty string. -/
def rowMatchesFilters (genreF instF : Option String) (r : ChainRow) : Bool :=
  (match genreF with
   | some g => if g = "" then true else sqlILikeAnywhere g r.genre
   | none => true)
  && (match instF with
      | some i => if i = "" then true else sqlILikeAnywhere i r.instrument
      | none => true)

/-- ORDER BY key ascending, modelled with insertion sort (the claims only use
that the result is sorted and a permutation of the input). -/
def sortByKey {α : Type} (key : α → ℚ) (l : List α) : List α :=
  List.insertionSort (fun a b => key a ≤ key b) l

/-- vector_store.py search_plugin_chains, lines 168 to 183: the row-to-entity
mapping of the result loop (tags fall back to the empty list). -/
def rowToChain (r : ChainRow) : PluginChain :=
  { id := some r.id
    name := r.name
    description := r.description
    plugins := r.plugins
    genre := r.genre
    instrument := r.instrument
    tags := r.tags.getD []
    rating := r.rating
    created_at := r.created_at
    created_by := r.created_by }

/-- Lookup in a metadata mapping (Python dict.get). -/
def mLookup (m : List (String × JVal)) (k : String) : Option JVal :=
  (m.find? (fun p => p.1 == k)).map (fun p => p.2)

/-- Pydantic coercion of a JSON scalar to a string field. -/
def jvalToString : JVal → String
  | .s v => v
  | .n v => toString v

/-- vector_store.py search_documents, lines 81 to 94: the row-to-chunk
mapping, with the source falling back to the joined url column and then to
the literal Unknown, and chunk_index falling back to 0. -/
def rowToChunk (r : DocRow) : DocumentChunk :=
  let metadata := r.metadata.getD []
  { id := some r.id
    content := r.content
    embedding := (r.embedding.getD [])
    metadata := metadata
    source := match mLookup metadata "source" with
      | some v => jvalToString v
      | none => r.url.getD "Unknown"
    chunk_index := match mLookup metadata "chunk_index" with
      | some (.n k) => k
      | _ => 0
    created_at := none }

/-- vector_store.py search_plugin_chains, lines 130 to 185.  The function
first requests an embedding of the query text (unconditionally: the source
has no validation of the text), then sends one SQL query whose semantics is:
filter by the optional ILIKE conditions, order by cosine distance to the
query vector ascending, take LIMIT rows, and report 1 - distance as the
similarity of each row.  Postgres rejects a negative LIMIT with an error;
LIMIT 0 returns no rows.  The second component is the trace of network calls
issued, in order. -/
def searchPluginChainsRun (env : Env) (query_text : String) (limit : Int)
    (genre_filter instrument_filter : Option String) :
    Except SearchErr (List (PluginChain × ℚ)) × List NetCall :=
  match env.embed query_text with
  | .error _ => (.error .providerUnavailable, [.embed query_text])
  | .ok v =>
    if limit < 0 then
      (.error .storeError, [.embed query_text, .store])
    else
      let candidates := env.chains.filter (rowMatchesFilters genre_filter instrument_filter)
      let sorted := sortByKey (fun r => env.dist v r.embedding) candidates
      let rows := sorted.take limit.toNat
      (.ok (rows.map (fun r => (rowToChain r, 1 - env.dist v r.embedding))),
       [.embed query_text, .store])

/-- search_plugin_chains with the optional filters omitted at the call site:
Python fills in the declared defaults genre_filter=None and
instrument_filter=None. -/
def searchPluginChainsRunDefaults (env : Env) (query_text : String) (limit : Int) :
    Except SearchErr (List (PluginChain × ℚ)) × List NetCall :=
  searchPluginChainsRun env query_text limit none none

/-- vector_store.py search_documents, lines 62 to 98: same shape as the chain
search, without filters, over the documents table, keeping only rows whose
embedding is not NULL. -/
def searchDocumentsRun (env : Env) (query_text : String) (limit : Int) :
    Except SearchErr (List (DocumentChunk × ℚ)) × List NetCall :=
  match env.embed query_text with
  | .error _ => (.error .providerUnavailable, [.embed query_text])
  | .ok v =>
    if limit < 0 then
      (.error .storeError, [.embed query_text, .store])
    else
      let candidates := env.docs.filter (fun r => r.embedding.isSome)
      let sorted := sortByKey (fun r => env.dist v (r.embedding.getD [])) candidates
      let rows := sorted.take limit.toNat
      (.ok (rows.map (fun r => (rowToChunk r, 1 - env.dist v (r.embedding.getD [])))),
       [.embed query_text, .store])

/-- rag_agent.py AudioPluginResponse: the structured output of the opaque
generative step. -/
structure RecDict where
  chain : PluginChain
  similarity_score : Option ℚ
deriving DecidableEq

/-- rag_agent.py AudioPluginResponse, lines 15 to 20. -/
structure AudioPluginResponse where
  recommendations : List RecDict
  explanation : String
  additional_tips : Option String
  confidence : ℚ
deriving DecidableEq

/-- rag_agent.py AudioPluginRAGAgent.query, lines 104 to 138: the response
assembly.  The generative output is a parameter (the agent.run call is an
opaque capability); every recommendation dict it returns is converted to a
PluginRecommendation carrying the shared query-level explanation and
confidence, with the similarity score defaulting to 0, and the envelope
reports the length of that list and the elapsed time. -/
def agentQuery (output : AudioPluginResponse) (q : PluginQuery) (searchTime : ℚ) :
    RAGResponse :=
  let recommendations := output.recommendations.map (fun rec =>
    { chain := rec.chain
      similarity_score := rec.similarity_score.getD 0
      explanation := output.explanation
      confidence := output.confidence : PluginRecommendation })
  { recommendations := recommendations
    query_context := buildQueryContext q
    total_results := recommendations.length
    search_time_ms := searchTime }

/-- numpy dot product of two vectors (embeddings.py cosine_similarity). -/
def dotProd (a b : List ℝ) : ℝ :=
  (List.zipWith (fun x y => x * y) a b).sum

/-- Sum of squares of the components of a vector. -/
def sumSq (a : List ℝ) : ℝ :=
  (a.map (fun x => x * x)).sum

/-- numpy linalg.norm: the Euclidean norm. -/
noncomputable def l2norm (a : List ℝ) : ℝ :=
  Real.sqrt (sumSq a)

/-- embeddings.py cosine_similarity, lines 36 to 40: dot(a,b) divided by the
product of the norms, with no guard against zero-magnitude vectors. -/
noncomputable def cosine_similarity (a b : List ℝ) : ℝ :=
  dotProd a b / (l2norm a * l2norm b)

/-- The pgvector cosine-distance operator written with three angle brackets
in the SQL of vector_store.py: one minus the cosine similarity. -/
noncomputable def cosineDistance (a b : List ℝ) : ℝ :=
  1 - cosine_similarity a b

/-- The similarity column computed by the SQL of search_plugin_chains and
search_documents: 1 - (embedding cosine-distance query). -/
noncomputable def sqlSimilarity (a b : List ℝ) : ℝ :=
  1 - cosineDistance a b

lemma dotProd_eq_sum_range (a b : List ℝ) :
    dotProd a b = ∑ i in Finset.range (min a.length b.length),
      a.getD i 0 * b.getD i 0 := by
  induction a generalizing b with
  | nil => simp [dotProd]
  | cons x as ih =>
    cases b with
    | nil => simp [dotProd]
    | cons y bs =>
      rw [List.length_cons, List.length_cons, Nat.succ_min_succ,
        Finset.sum_range_succ']
      simp only [List.getD_cons_succ, List.getD_cons_zero]
      rw [← ih]
      simp [dotProd, add_comm]

lemma sumSq_eq_sum_range (a : List ℝ) :
    sumSq a = ∑ i in Finset.range a.length, (a.getD i 0) ^ 2 := by
  induction a with
  | nil => simp [sumSq]
  | cons x as ih =>
    rw [List.length_cons, Finset.sum_range_succ']
    simp only [List.getD_cons_succ, List.getD_cons_zero]
    rw [← ih]
    simp [sumSq, sq, add_comm]

lemma sumSq_nonneg (a : List ℝ) : 0 ≤ sumSq a := by
  rw [sumSq_eq_sum_range]
  exact Finset.sum_nonneg fun i _ => sq_nonneg _

lemma abs_dotProd_le (a b : List ℝ) : |dotProd a b| ≤ l2norm a * l2norm b := by
  have h2 : (dotProd a b) ^ 2 ≤ sumSq a * sumSq b := by
    rw [dotProd_eq_sum_range]
    refine (Finset.sum_mul_sq_le_sq_mul_sq (Finset.range (min a.length b.length))
      (fun i => a.getD i 0) (fun i => b.getD i 0)).trans ?_
    have ha : ∑ i in Finset.range (min a.length b.length), (a.getD i 0) ^ 2
        ≤ sumSq a := by
      rw [sumSq_eq_sum_range]
      refine Finset.sum_le_sum_of_subset_of_nonneg
        (Finset.range_subset.mpr (min_le_left _ _)) ?_
      intro i _ _
      exact sq_nonneg _
    have hb : ∑ i in Finset.range (min a.length b.length), (b.getD i 0) ^ 2
        ≤ sumSq b := by
      rw [sumSq_eq_sum_range]
      refine Finset.sum_le_sum_of_subset_of_nonneg
        (Finset.range_subset.mpr (min_le_right _ _)) ?_
      intro i _ _
      exact sq_nonneg _
    exact mul_le_mul ha hb (Finset.sum_nonneg fun i _ => sq_nonneg _) (sumSq_nonneg a)
  have h3 : Real.sqrt ((dotProd a b) ^ 2) ≤ Real.sqrt (sumSq a * sumSq b) :=
    Real.sqrt_le_sqrt h2
  rw [Real.sqrt_sq_eq_abs, Real.sqrt_mul (sumSq_nonneg a)] at h3
  simpa [l2norm] using h3

lemma sortByKey_sorted {α : Type} (key : α → ℚ) (l : List α) :
    List.Sorted (fun a b => key a ≤ key b) (sortByKey key l) := by
  haveI : IsTotal α (fun a b => key a ≤ key b) := ⟨fun a b => le_total _ _⟩
  haveI : IsTrans α (fun a b => key a ≤ key b) := ⟨fun a b c hab hbc => le_trans hab hbc⟩
  exact List.sorted_insertionSort _ l

lemma sortTake_snd_sorted {α γ : Type} (key : α → ℚ) (g : α → γ) (l : List α)
    (n : ℕ) :
    List.Sorted (fun x y : ℚ => x ≥ y)
      ((((sortByKey key l).take n).map (fun r => (g r, 1 - key r))).map Prod.snd) := by
  have hst : List.Pairwise (fun a b => key a ≤ key b) ((sortByKey key l).take n) :=
    List.Pairwise.sublist (List.take_sublist _ _) (sortByKey_sorted key l)
  have himp : List.Pairwise (fun a b => (1 - key a) ≥ (1 - key b))
      ((sortByKey key l).take n) :=
    hst.imp (fun h => by simpa using sub_le_sub_left h 1)
  rw [List.map_map]
  exact List.pairwise_map.mpr (by simpa [Function.comp] using himp)

lemma cosine_similarity_mem_Icc (a b : List ℝ) (ha : sumSq a ≠ 0)
    (hb : sumSq b ≠ 0) : cosine_similarity a b ∈ Set.Icc (-1 : ℝ) 1 := by
  have hna : 0 < l2norm a :=
    Real.sqrt_pos.mpr (lt_of_le_of_ne (sumSq_nonneg a) (Ne.symm ha))
  have hnb : 0 < l2norm b :=
    Real.sqrt_pos.mpr (lt_of_le_of_ne (sumSq_nonneg b) (Ne.symm hb))
  have hd : 0 < l2norm a * l2norm b := mul_pos hna hnb
  have habs := abs_dotProd_le a b
  have hpair := abs_le.mp habs
  constructor
  · rw [cosine_similarity, le_div_iff₀ hd]
    linarith [hpair.1]
  · rw [cosine_similarity, div_le_one hd]
    exact hpair.2

/-- A fixture environment with two chain rows (at cosine distances 2 and 1
from every query vector) and two document rows, one of which has a NULL
embedding. -/
def rowA : ChainRow :=
  { id := 1, name := "A", description := "dA", plugins := [], genre := none
    instrument := none, tags := none, rating := none, created_at := none
    created_by := none, embedding := [2] }

def rowB : ChainRow :=
  { id := 2, name := "B", description := "dB", plugins := [], genre := none
    instrument := none, tags := none, rating := none, created_at := none
    created_by := none, embedding := [1] }

def docA : DocRow :=
  { id := 1, content := "c1", metadata := none, embedding := some [3]
    title := none, url := none }

def docB : DocRow :=
  { id := 2, content := "c2", metadata := none, embedding := none
    title := none, url := none }

def envW : Env :=
  { embed := fun _ => .ok [1]
    dist := fun _ e => e.headD 0
    chains := [rowA, rowB]
    docs := [docA, docB] }

/-- What the fixture chain search returns: both rows, closest first. -/
def resChainsW : List (PluginChain × ℚ) :=
  [(rowToChain rowB, 1 - 1), (rowToChain rowA, 1 - 2)]

/-- What the fixture document search returns: only the non-NULL row. -/
def resDocsW : List (DocumentChunk × ℚ) :=
  [(rowToChunk docA, 1 - 3)]

/-- An environment with empty tables whose embedding provider always
succeeds. -/
def env0 : Env :=
  { embed := fun _ => .ok [1]
    dist := fun _ _ => 0
    chains := []
    docs := [] }

/-- C2: every successful call of search_plugin_chains or search_documents
returns at most limit rows, ordered by non-increasing similarity score
(equivalently, ascending cosine distance). -/
theorem search_results_bounded_and_sorted :
    (∀ (env : Env) (q : String) (limit : Int) (gF iF : Option String)
        (res : List (PluginChain × ℚ)) (tr : List NetCall),
      searchPluginChainsRun env q limit gF iF = (.ok res, tr) →
        (res.length : Int) ≤ limit ∧ List.Sorted (· ≥ ·) (res.map Prod.snd))
    ∧ (∀ (env : Env) (q : String) (limit : Int)
        (res : List (DocumentChunk × ℚ)) (tr : List NetCall),
      searchDocumentsRun env q limit = (.ok res, tr) →
        (res.length : Int) ≤ limit ∧ List.Sorted (· ≥ ·) (res.map Prod.snd)) := by
  constructor
  · intro env q limit gF iF res tr h
    unfold searchPluginChainsRun at h
    rcases hE : env.embed q with e | v
    · rw [hE] at h
      simp at h
    · rw [hE] at h
      dsimp only at h
      by_cases hl : limit < 0
      · rw [if_pos hl] at h
        simp at h
      · rw [if_neg hl] at h
        simp only [Prod.mk.injEq, Except.ok.injEq] at h
        obtain ⟨hres, -⟩ := h
        subst hres
        constructor
        · rw [List.length_map, List.length_take]
          calc ((min limit.toNat _ : ℕ) : Int)
              ≤ (limit.toNat : Int) := Int.ofNat_le.mpr (min_le_left _ _)
            _ = limit := Int.toNat_of_nonneg (not_lt.mp hl)
        · exact sortTake_snd_sorted _ rowToChain _ _
  · intro env q limit res tr h
    unfold searchDocumentsRun at h
    rcases hE : env.embed q with e | v
    · rw [hE] at h
      simp at h
    · rw [hE] at h
      dsimp only at h
      by_cases hl : limit < 0
      · rw [if_pos hl] at h
        simp at h
      · rw [if_neg hl] at h
        simp only [Prod.mk.injEq, Except.ok.injEq] at h
        obtain ⟨hres, -⟩ := h
        subst hres
        constructor
        · rw [List.length_map, List.length_take]
          calc ((min limit.toNat _ : ℕ) : Int)
              ≤ (limit.toNat : Int) := Int.ofNat_le.mpr (min_le_left _ _)
            _ = limit := Int.toNat_of_nonneg (not_lt.mp hl)
        · exact sortTake_snd_sorted _ rowToChunk _ _

/-- C2 witness: the bound and the ordering instantiated on the fixture
environment for both search operations. -/
theorem search_results_bounded_and_sorted_witness :
    ((resChainsW.length : Int) ≤ 5 ∧ List.Sorted (· ≥ ·) (resChainsW.map Prod.snd))
    ∧ ((resDocsW.length : Int) ≤ 5 ∧ List.Sorted (· ≥ ·) (resDocsW.map Prod.snd)) :=
  ⟨search_results_bounded_and_sorted.1 envW "q" 5 none none resChainsW
      [.embed "q", .store] rfl,
   search_results_bounded_and_sorted.2 envW "q" 5 resDocsW
      [.embed "q", .store] rfl⟩

/-- C3: passing genre_filter=None and instrument_filter=None is the same call
as omitting both filters (Python fills in exactly these defaults), and with
both filters unset the WHERE clause restricts nothing: the candidate set is
the whole table. -/
theorem filter_noop_law :
    ∀ (env : Env) (q : String) (L : Int),
      searchPluginChainsRun env q L none none = searchPluginChainsRunDefaults env q L
      ∧ env.chains.filter (rowMatchesFilters none none) = env.chains := by
  intro env q L
  exact ⟨rfl, List.filter_eq_self.mpr (fun a _ => rfl)⟩

/-- C4 counterexample: on empty query text the search does not fail with
InvalidInput; it sends the empty string to the embedding provider and then
queries the store. -/
theorem empty_text_not_rejected_cex :
    (searchPluginChainsRun env0 "" 5 none none).1 = .ok []
    ∧ (searchPluginChainsRun env0 "" 5 none none).2 = [.embed "", .store]
    ∧ ¬ ((searchPluginChainsRun env0 "" 5 none none).1 = .error .invalidInput
          ∧ (searchPluginChainsRun env0 "" 5 none none).2 = []) :=
  ⟨rfl, rfl, fun h => Except.noConfusion h.1⟩

/-- C4 amended: empty query text is not rejected.  The source contains no
validation: the first network call is always the embedding request carrying
the empty string, and the pipeline never produces the InvalidInput
condition. -/
theorem empty_text_reaches_embedding :
    ∀ (env : Env) (gF iF : Option String) (limit : Int),
      (searchPluginChainsRun env "" limit gF iF).2.head? = some (.embed "")
      ∧ (searchPluginChainsRun env "" limit gF iF).1 ≠ .error .invalidInput := by
  intro env gF iF limit
  unfold searchPluginChainsRun
  rcases hE : env.embed "" with e | v
  · exact ⟨rfl, fun h => by simp at h⟩
  · dsimp only
    by_cases hl : limit < 0
    · rw [if_pos hl]
      exact ⟨rfl, fun h => by simp at h⟩
    · rw [if_neg hl]
      exact ⟨rfl, fun h => by simp at h⟩

/-- C5 counterexample: limit 0 (below 1) is not rejected as InvalidInput: the
embedding request and the store query are both issued and the call returns an
empty ok result. -/
theorem nonpositive_limit_not_rejected_cex :
    (searchPluginChainsRun env0 "q" 0 none none).1 = .ok []
    ∧ (searchPluginChainsRun env0 "q" 0 none none).2 = [.embed "q", .store]
    ∧ ¬ ((searchPluginChainsRun env0 "q" 0 none none).1 = .error .invalidInput
          ∧ (searchPluginChainsRun env0 "q" 0 none none).2 = []) :=
  ⟨rfl, rfl, fun h => Except.noConfusion h.1⟩

/-- C5 amended: a non-positive limit is not rejected before network calls.
The embedding request is still the first call issued and the InvalidInput
condition is never produced; limit 0 yields an empty result from the store
and a negative limit surfaces a store error, in both cases after the network
calls. -/
theorem nonpositive_limit_reaches_embedding :
    ∀ (env : Env) (q : String) (gF iF : Option String) (limit : Int),
      limit < 1 →
      (searchPluginChainsRun env q limit gF iF).2.head? = some (.embed q)
      ∧ (searchPluginChainsRun env q limit gF iF).1 ≠ .error .invalidInput := by
  intro env q gF iF limit _
  unfold searchPluginChainsRun
  rcases hE : env.embed q with e | v
  · exact ⟨rfl, fun h => by simp at h⟩
  · dsimp only
    by_cases hl : limit < 0
    · rw [if_pos hl]
      exact ⟨rfl, fun h => by simp at h⟩
    · rw [if_neg hl]
      exact ⟨rfl, fun h => by simp at h⟩

/-- C5 witness: the amended statement instantiated at limit 0 on the fixture
environment. -/
theorem nonpositive_limit_reaches_embedding_witness :
    (searchPluginChainsRun env0 "q" 0 none none).2.head? = some (.embed "q")
    ∧ (searchPluginChainsRun env0 "q" 0 none none).1 ≠ .error .invalidInput :=
  nonpositive_limit_reaches_embedding env0 "q" none none 0 (by decide)

/-- C6 counterexample: for the well-formed (nonzero) one-dimensional vectors
1 and -1 the similarity column is 1 - cosine_distance = -1, outside [0,1]:
no clamping takes place. -/
theorem similarity_below_zero_cex :
    sumSq [(1 : ℝ)] ≠ 0 ∧ sumSq [(-1 : ℝ)] ≠ 0
    ∧ sqlSimilarity [(1 : ℝ)] [(-1 : ℝ)] = -1
    ∧ sqlSimilarity [(1 : ℝ)] [(-1 : ℝ)] < 0 := by
  refine ⟨by simp [sumSq], by simp [sumSq], ?_, ?_⟩ <;>
    simp [sqlSimilarity, cosineDistance, cosine_similarity, dotProd, l2norm,
      sumSq, Real.sqrt_one]

/-- C6 amended: the similarity column equals 1 - cosine_distance, where the
cosine distance is 1 - cosine_similarity; for well-formed vectors (both of
nonzero magnitude) the score lies in [-1, 1], not [0, 1], and no clamping or
rejection of degenerate vectors is performed by the code. -/
theorem similarity_eq_one_sub_distance_and_bounded :
    ∀ a b : List ℝ,
      sqlSimilarity a b = 1 - cosineDistance a b
      ∧ cosineDistance a b = 1 - cosine_similarity a b
      ∧ (sumSq a ≠ 0 → sumSq b ≠ 0 →
          -1 ≤ sqlSimilarity a b ∧ sqlSimilarity a b ≤ 1) := by
  intro a b
  refine ⟨rfl, rfl, fun ha hb => ?_⟩
  have h := cosine_similarity_mem_Icc a b ha hb
  have hsim : sqlSimilarity a b = cosine_similarity a b := by
    simp [sqlSimilarity, cosineDistance]
  rw [hsim]
  exact ⟨h.1, h.2⟩

/-- C6 witness: the bounds instantiated on the unit vector paired with
itself. -/
theorem similarity_eq_one_sub_distance_and_bounded_witness :
    sumSq [(1 : ℝ)] ≠ 0
    ∧ (-1 ≤ sqlSimilarity [(1 : ℝ)] [(1 : ℝ)]
        ∧ sqlSimilarity [(1 : ℝ)] [(1 : ℝ)] ≤ 1) :=
  have h : sumSq [(1 : ℝ)] ≠ 0 := by simp [sumSq]
  ⟨h, (similarity_eq_one_sub_distance_and_bounded [(1 : ℝ)] [(1 : ℝ)]).2.2 h h⟩

/-- Fixture chains for the canonical-projection claims: identical in name,
description, tags, genre and instrument, differing in id, rating and
creator. -/
def chainW1 : PluginChain :=
  { id := none, name := "n", description := "d", plugins := [], genre := some "g"
    instrument := some "i", tags := ["t1", "t2"], rating := none
    created_at := none, created_by := none }

def chainW2 : PluginChain :=
  { id := some 3, name := "n", description := "d", plugins := [], genre := some "g"
    instrument := some "i", tags := ["t1", "t2"], rating := some 5
    created_at := none, created_by := some "u" }

/-- C7: the embedding input text built by add_plugin_chain is a function of
name, description, tags, genre and instrument only (in Lean, as in Pydantic
construction, keyword order cannot influence the resulting record, so two
chains agreeing on those five fields yield the identical string), and for
chains with genre and instrument present and non-empty the projection is the
concatenation name, description, tags, genre, instrument in that fixed
order. -/
theorem canonical_projection_deterministic (c1 c2 : PluginChain)
    (hn : c1.name = c2.name) (hd : c1.description = c2.description)
    (ht : c1.tags = c2.tags) (hg : c1.genre = c2.genre)
    (hi : c1.instrument = c2.instrument) :
    chainText c1 = chainText c2
    ∧ (∀ g i, c1.genre = some g → g ≠ "" → c1.instrument = some i → i ≠ "" →
        chainText c1 = c1.name ++ " " ++ c1.description ++ " "
          ++ String.intercalate " " c1.tags ++ " " ++ g ++ " " ++ i) := by
  constructor
  · simp [chainText, hn, hd, ht, hg, hi]
  · intro g i hg1 hgne hi1 hine
    simp [chainText, hg1, hi1, hgne, hine]

/-- C7 witness: the fixture chains agree on the five projected fields and
disagree elsewhere, yet produce the identical embedding text, which is the
fixed-order concatenation. -/
theorem canonical_projection_deterministic_witness :
    chainText chainW1 = chainText chainW2
    ∧ chainText chainW1 = "n" ++ " " ++ "d" ++ " "
        ++ String.intercalate " " ["t1", "t2"] ++ " " ++ "g" ++ " " ++ "i" :=
  ⟨(canonical_projection_deterministic chainW1 chainW2 rfl rfl rfl rfl rfl).1,
   (canonical_projection_deterministic chainW1 chainW1 rfl rfl rfl rfl rfl).2
      "g" "i" rfl (by decide) rfl (by decide)⟩

/-- Fixture generative output and query for the envelope-assembly claims. -/
def outW : AudioPluginResponse :=
  { recommendations :=
      [{ chain := chainW1, similarity_score := none },
       { chain := chainW2, similarity_score := none }]
    explanation := "e", additional_tips := none, confidence := 1 }

def qW : PluginQuery :=
  { text := "t", genre := none, instrument := none, owned_plugins := []
    max_results := 5 }

def recW : PluginRecommendation :=
  { chain := chainW1, similarity_score := 0, explanation := "e", confidence := 1 }

/-- C8: in the assembled envelope every recommendation carries the shared
query-level explanation and the shared confidence of the generative output,
the recommendations appear in the order of the retrieved candidates with no
re-sorting, and total_results equals the number of recommendations. -/
theorem envelope_assembly_shared_and_ordered :
    ∀ (output : AudioPluginResponse) (q : PluginQuery) (t : ℚ),
      (∀ r ∈ (agentQuery output q t).recommendations,
          r.explanation = output.explanation ∧ r.confidence = output.confidence)
      ∧ (agentQuery output q t).recommendations.map (fun r => r.chain)
          = output.recommendations.map (fun r => r.chain)
      ∧ (agentQuery output q t).total_results
          = ((agentQuery output q t).recommendations.length : Int) := by
  intro output q t
  refine ⟨?_, ?_, rfl⟩
  · intro r hr
    simp only [agentQuery, List.mem_map] at hr
    obtain ⟨rec, -, hrec⟩ := hr
    rw [← hrec]
    exact ⟨rfl, rfl⟩
  · simp [agentQuery]

/-- C8 witness: the assembly facts instantiated on the fixture output, with
the shared-field fact read off the first assembled recommendation. -/
theorem envelope_assembly_shared_and_ordered_witness :
    (recW.explanation = outW.explanation ∧ recW.confidence = outW.confidence)
    ∧ (agentQuery outW qW 0).recommendations.map (fun r => r.chain)
        = outW.recommendations.map (fun r => r.chain) :=
  ⟨(envelope_assembly_shared_and_ordered outW qW 0).1 recW
      (List.mem_cons_self _ _),
   (envelope_assembly_shared_and_ordered outW qW 0).2.1⟩

/-- The query used to refute the literal reading of the context-build claim:
its genre is set, to the empty string. -/
def qC9 : PluginQuery :=
  { text := "x", genre := some "", instrument := none, owned_plugins := []
    max_results := 5 }

/-- C9 counterexample: with genre set to the empty string the code appends no
genre clause, while the claim (clause appended iff the field is set) demands
one: the two renderings differ. -/
theorem query_context_empty_genre_cex :
    qC9.genre.isSome = true
    ∧ buildQueryContext qC9 = "Query: " ++ "x"
    ∧ buildQueryContext qC9 ≠ specQueryContextSet qC9 := by
  refine ⟨rfl, rfl, ?_⟩
  decide

/-- C9 amended: the context string starts with the query text clause and then
appends the genre clause, the instrument clause and the owned-plugins clause
in that fixed order, each iff its field is truthy: set to a non-empty string
(for the list: non-empty). -/
theorem query_context_matches_truthy_spec :
    ∀ q : PluginQuery, buildQueryContext q = specQueryContextTruthy q := by
  intro q
  obtain ⟨t, g, i, o, m⟩ := q
  rcases g with _ | g <;> rcases i with _ | i <;>
    simp only [buildQueryContext, specQueryContextTruthy] <;>
    split_ifs <;>
    simp [String.append_assoc]

/-- C10: the canonical projection is sensitive to the order of the tags list:
two chains identical in every field except the order of the same two tags
produce different embedding input strings. -/
theorem chain_text_depends_on_tag_order :
    ∃ c1 c2 : PluginChain,
      c1.name = c2.name ∧ c1.description = c2.description
      ∧ c1.genre = c2.genre ∧ c1.instrument = c2.instrument
      ∧ c1.tags.Perm c2.tags ∧ chainText c1 ≠ chainText c2 := by
  refine ⟨{ id := none, name := "n", description := "d", plugins := []
            genre := none, instrument := none, tags := ["a", "b"]
            rating := none, created_at := none, created_by := none },
          { id := none, name := "n", description := "d", plugins := []
            genre := none, instrument := none, tags := ["b", "a"]
            rating := none, created_at := none, created_by := none },
          rfl, rfl, rfl, rfl, ?_, ?_⟩ <;> decide

/-- The failing configuration for the result-count claim: the generative
output contains two recommendations while the query allows one. -/
def qC1 : PluginQuery :=
  { text := "t", genre := none, instrument := none, owned_plugins := []
    max_results := 1 }

def outC1 : AudioPluginResponse :=
  { recommendations :=
      [{ chain := chainW1, similarity_score := none },
       { chain := chainW2, similarity_score := none }]
    explanation := "e", additional_tips := none, confidence := 1 }

/-- C1: the orchestrator never reads query.max_results; it copies every
recommendation of the generative output into the envelope, so with two
candidates and max_results = 1 the envelope exceeds the bound the
specification states. -/
theorem query_ignores_max_results :
    ¬ (((agentQuery outC1 qC1 0).recommendations.length : Int) ≤ qC1.max_results) := by
  decide

/-- C4 witness: the amended statement instantiated on the fixture
environment. -/
theorem empty_text_reaches_embedding_witness :
    (searchPluginChainsRun env0 "" 5 none none).2.head? = some (.embed "")
    ∧ (searchPluginChainsRun env0 "" 5 none none).1 ≠ .error .invalidInput :=
  empty_text_reaches_embedding env0 none none 5
